import Mathlib

/-!
# Verification of the YouTube auto-transcription pipeline

A shallow embedding, in Lean 4, of the core logic of the
`youtube_auto_v1` repository:

* `lib/media-worker-client.ts` — HMAC signing and the `transcribeVideo`
  retry loop of the Dispatch Client;
* the Express `/transcribe` handler of the media worker — signature
  verification gate and the download/transcode/STT pipeline stages;
* `lib/supabase.ts` — the Item Store operations (video rows, transcript
  rows, analysis rows) as pure state transformers on an in-memory
  database value;
* `lib/agents/shared.ts` — the zod output schema of the analysis agents
  as an explicit validator over a JSON value type;
* `app/api/cron/process-new-videos/route.ts` — the batch driver (`GET`
  cron handler) composing the above, with its per-video try/catch
  boundary and its processing summary.

External effects (HTTP, the HMAC-SHA256 primitive from node `crypto`,
the reasoning-model call, wall-clock time) are passed in as explicit
function parameters, so every definition is executable.

Theorems at the end of the file settle the frozen specification claims
C1–C10.
-/

namespace YTA

/-! ## Strings: JS `String.prototype.includes`

`transcribeVideo` decides retryability with `message.includes(...)`;
we model substring search on the character lists of Lean strings. -/

/-- `charsStartWith needle hay` : `hay` starts with `needle` (on chars). -/
def charsStartWith : List Char → List Char → Bool
  | [], _ => true
  | _ :: _, [] => false
  | c :: cs, d :: ds => c == d && charsStartWith cs ds

/-- `listHasSubstr needle hay` : `needle` occurs contiguously in `hay`. -/
def listHasSubstr : List Char → List Char → Bool
  | needle, [] => needle.isEmpty
  | needle, d :: ds => charsStartWith needle (d :: ds) || listHasSubstr needle ds

/-- JS `s.includes(sub)` on Lean strings. -/
def strIncludes (s sub : String) : Bool :=
  listHasSubstr sub.data s.data

/-! ## Dispatch Client: `lib/media-worker-client.ts` -/

/-- Response shape of the worker (`duration_sec`, `text`, `language`;
`segments` is always `null` in phase 1 and is omitted). -/
structure TranscribeResponse where
  duration_sec : Nat
  text : String
  language : String
deriving DecidableEq, Repr

/-- Error body of the worker: `{error, details?}`. -/
structure MediaWorkerError where
  error : String
  details : Option String := none
deriving DecidableEq, Repr

/-- The message of the `Error` the client builds from a non-ok worker
response: the text `Media Worker error: ` followed by the error field
of the body, then ` - ` and the details field when that is present. -/
def clientErrorMessage (e : MediaWorkerError) : String :=
  "Media Worker error: " ++ e.error ++
    (match e.details with
     | some d => " - " ++ d
     | none => "")

/-- Outcome of one `fetch` attempt inside `transcribeVideo`:
either the parsed successful response, or the message of the
`Error` thrown/caught for this attempt. -/
inductive AttemptOutcome where
  | success (resp : TranscribeResponse)
  | failure (msg : String)
deriving DecidableEq, Repr

/-- The non-retryable check of the client: the caught message includes
`Invalid signature`, includes `400`, or includes `401`. -/
def nonRetryable (msg : String) : Bool :=
  strIncludes msg "Invalid signature" || strIncludes msg "400" || strIncludes msg "401"

/-- The terminal error message: `Transcription failed after N attempts: `
with N = retries + 1, followed by the last caught message, defaulted to
`Unknown error` when absent — and, JS falsiness, also when empty. -/
def terminalMsg (retries : Nat) (lastError : Option String) : String :=
  "Transcription failed after " ++ toString (retries + 1) ++ " attempts: " ++
    (match lastError with
     | some m => if m = "" then "Unknown error" else m
     | none => "Unknown error")

instance {α β : Type} [DecidableEq α] [DecidableEq β] : DecidableEq (Except α β)
  | .error a, .error b =>
    if h : a = b then .isTrue (by rw [h]) else .isFalse (by intro hh; cases hh; exact h rfl)
  | .error _, .ok _ => .isFalse (by intro h; cases h)
  | .ok _, .error _ => .isFalse (by intro h; cases h)
  | .ok a, .ok b =>
    if h : a = b then .isTrue (by rw [h]) else .isFalse (by intro hh; cases hh; exact h rfl)

/-- Result of `transcribeVideo`: the returned response or the thrown
error message, together with how many `fetch` attempts were made. -/
structure TranscribeResult where
  result : Except String TranscribeResponse
  attempts : Nat
deriving DecidableEq, Repr

/-- The `for (let attempt = 0; attempt <= retries; attempt++)` loop of
`transcribeVideo`. `remaining` counts loop iterations still allowed
(initially `retries + 1`), `attempt` is the loop counter, `lastError`
and `made` track the last caught error and the attempts performed.
On a non-retryable error the loop `break`s and the terminal error is
thrown with that message as `lastError`. -/
def transcribeLoop (outcome : Nat → AttemptOutcome) (retries : Nat) :
    Nat → Nat → Option String → Nat → TranscribeResult
  | _, 0, lastError, made => ⟨.error (terminalMsg retries lastError), made⟩
  | attempt, remaining + 1, _, made =>
    match outcome attempt with
    | .success r => ⟨.ok r, made + 1⟩
    | .failure m =>
      if nonRetryable m then ⟨.error (terminalMsg retries (some m)), made + 1⟩
      else transcribeLoop outcome retries (attempt + 1) remaining (some m) (made + 1)

/-- `transcribeVideo(request, retries = 2)`: run the attempt loop from
attempt `0`. The `outcome` parameter stands for the effectful `fetch`
(attempt number ↦ what that attempt yields). -/
def transcribeVideo (outcome : Nat → AttemptOutcome) (retries : Nat := 2) : TranscribeResult :=
  transcribeLoop outcome retries 0 (retries + 1) none 0

/-! ## HMAC signing and verification

The node `crypto` HMAC-SHA256 hex digest over a payload under a secret
is an external primitive; we pass it in as a function
`hmacHex : String → String → String` (secret, payload ↦ hex digest).
`JSON.stringify` on the request body is likewise passed in as a
serialization function, shared by signer and verifiers (both sides
stringify the same body object). -/

/-- `crypto.timingSafeEqual` on the two buffers: throws a `RangeError`
when the byte lengths differ, otherwise compares. -/
def timingSafeEqual (a b : String) : Except Unit Bool :=
  if a.length = b.length then .ok (a = b) else .error ()

/-- Client `generateSignature(body, secret)` from
`lib/media-worker-client.ts`: hex HMAC-SHA256 of `JSON.stringify(body)`. -/
def generateSignature {Body : Type} (hmacHex : String → String → String)
    (serialize : Body → String) (body : Body) (secret : String) : String :=
  hmacHex secret (serialize body)

/-- Client `verifySignature(body, receivedSignature, secret)` from
`lib/media-worker-client.ts`: recompute and `timingSafeEqual`
(a `RangeError` of the comparison propagates as `.error ()`). -/
def verifySignature {Body : Type} (hmacHex : String → String → String)
    (serialize : Body → String) (body : Body) (receivedSignature : String)
    (secret : String) : Except Unit Bool :=
  timingSafeEqual (generateSignature hmacHex serialize body secret) receivedSignature

/-- The independently implemented `verifySignature` of the media worker:
same recompute-and-compare over the received body. -/
def workerVerifySignature {Body : Type} (hmacHex : String → String → String)
    (serialize : Body → String) (body : Body) (receivedSignature : String)
    (secret : String) : Except Unit Bool :=
  timingSafeEqual (hmacHex secret (serialize body)) receivedSignature

/-! ## The `POST /transcribe` handler of the media worker -/

/-- Parsed request body `{videoUrl?, langHint?, mode?}` as the handler
destructures it (all fields may be absent in the raw JSON). -/
structure WorkerRequestBody where
  videoUrl : Option String
  langHint : Option String := none
  mode : Option String := none
deriving DecidableEq, Repr

/-- The pipeline stages the handler can perform after the
authentication gate. -/
inductive WorkStep where
  | download
  | transcode
  | sttBackend
deriving DecidableEq, Repr

/-- HTTP response of the handler: status code and error body
(`none` for the success JSON). -/
structure WorkerHttpResponse where
  status : Nat
  errorBody : Option MediaWorkerError
deriving DecidableEq, Repr

/-- Outcomes of the three effectful stages (yt-dlp download, ffmpeg
transcode, Deepgram call), passed in as parameters. A Deepgram failure
carries the error text echoed in the 500 body `details`. -/
structure WorkerStageOutcomes where
  download : Except String Unit
  transcode : Except String Unit
  stt : Except String TranscribeResponse
deriving Repr

/-- The `/transcribe` route handler: the signature gate and the staged
pipeline. Step 1 checks the `X-Signature` header: missing ⇒ 401
`Missing signature`; mismatch ⇒ 401 `Invalid signature`; a
`timingSafeEqual` length error is thrown inside the `try`, so the
`catch` answers 500 `Transcription failed`. Step 2 rejects a missing
`videoUrl` with 400. Then download, transcode and the STT call run in
order; a stage failure stops the pipeline (download/transcode errors
via the `catch` ⇒ 500 `Transcription failed`, a Deepgram error ⇒ 500
`Deepgram transcription failed`). The returned list records which
stages were started. -/
def transcribeHandler (hmacHex : String → String → String)
    (serialize : WorkerRequestBody → String) (secret : String)
    (outcomes : WorkerStageOutcomes) (body : WorkerRequestBody)
    (sigHeader : Option String) : WorkerHttpResponse × List WorkStep :=
  match sigHeader with
  | none => (⟨401, some ⟨"Missing signature", none⟩⟩, [])
  | some received =>
    match workerVerifySignature hmacHex serialize body received secret with
    | .error () => (⟨500, some ⟨"Transcription failed", some "Input buffers must have the same byte length"⟩⟩, [])
    | .ok false => (⟨401, some ⟨"Invalid signature", none⟩⟩, [])
    | .ok true =>
      match body.videoUrl with
      | none => (⟨400, some ⟨"Missing videoUrl parameter", none⟩⟩, [])
      | some u =>
        -- JS `if (!videoUrl)`: the empty string is falsy as well
        if u = "" then (⟨400, some ⟨"Missing videoUrl parameter", none⟩⟩, []) else
        match outcomes.download with
        | .error e => (⟨500, some ⟨"Transcription failed", some e⟩⟩, [.download])
        | .ok () =>
          match outcomes.transcode with
          | .error e => (⟨500, some ⟨"Transcription failed", some e⟩⟩, [.download, .transcode])
          | .ok () =>
            match outcomes.stt with
            | .error e => (⟨500, some ⟨"Deepgram transcription failed", some e⟩⟩,
                [.download, .transcode, .sttBackend])
            | .ok _ => (⟨200, none⟩, [.download, .transcode, .sttBackend])

/-! ## Item Store: `lib/supabase.ts`

The Supabase tables become lists of rows inside a `DB` value, and each
exported operation becomes a pure state transformer. Postgres `UPSERT
... ON CONFLICT key` becomes `upsertBy key`. The `ORDER BY` clauses of
the read operations are not modelled (no settled claim depends on row
order). Timestamps (`new Date().toISOString()`) are modelled as a `Nat`
clock value passed in by the caller. -/

/-- `status ∈ {queued, processing, succeeded, failed}` (`VideoStatus`). -/
inductive VideoStatus where
  | queued
  | processing
  | succeeded
  | failed
deriving DecidableEq, Repr

/-- Urgency / confidence levels: the zod enum of HIGH, MEDIUM, LOW. -/
inductive Level where
  | HIGH
  | MEDIUM
  | LOW
deriving DecidableEq, Repr

/-- A player record as declared by `PlayerSchema` in
`lib/agents/shared.ts` (required `name`, `urgency`, `reasoning`;
optional `team`, `position`, `roster_percentage`, `context`). -/
structure Player where
  name : String
  team : Option String := none
  position : Option String := none
  urgency : Level
  reasoning : String
  roster_percentage : Option Int := none
  context : Option String := none
deriving DecidableEq, Repr

/-- The six agent kinds of `AgentType` in `lib/supabase.ts`. -/
inductive AgentType where
  | must_roster
  | watch_list
  | drop
  | injury_return
  | sell_high
  | buy_low
deriving DecidableEq, Repr

/-- A row of the `videos` table. -/
structure VideoRow where
  id : String
  title : String
  published_at : String
  duration_sec : Option Nat
  status : VideoStatus
  processed_at : Option Nat
  notes : Option String
deriving DecidableEq, Repr

/-- A row of the `transcripts` table (`segments` is always `null` on
the paths modelled here and is omitted). -/
structure TranscriptRow where
  video_id : String
  source : String
  language : Option String
  text : String
deriving DecidableEq, Repr

/-- A row of the `analysis` table (timestamps omitted). -/
structure AnalysisRow where
  video_id : String
  agent_type : AgentType
  players : List Player
  summary : String
  confidence : Level
  raw_response : Option String
deriving DecidableEq, Repr

/-- The in-memory database. -/
structure DB where
  videos : List VideoRow
  transcripts : List TranscriptRow
  analyses : List AnalysisRow
deriving DecidableEq, Repr

/-- `UPSERT ... ON CONFLICT key`: replace the row with the same key, or
append when no row matches. -/
def upsertBy {α κ : Type} [DecidableEq κ] (key : α → κ) (x : α) : List α → List α
  | [] => [x]
  | y :: ys => if key y = key x then x :: ys else y :: upsertBy key x ys

/-- `selectVideoIds(videoIds)`: the ids among `ids` that exist in the
`videos` table. -/
def selectVideoIds (ids : List String) (db : DB) : List String :=
  (db.videos.filter (fun v => ids.contains v.id)).map (fun v => v.id)

/-- The argument record of `upsertVideo` (optional fields defaulted by
the function body). -/
structure UpsertVideoInput where
  id : String
  title : String
  published_at : String
  duration_sec : Option Nat := none
  status : Option VideoStatus := none
  processed_at : Option Nat := none
  notes : Option String := none
deriving DecidableEq, Repr

/-- The row `upsertVideo` writes: `duration_sec` is or-defaulted to null
(so a JS-falsy 0 becomes null), `status` is or-defaulted to `queued`,
and `notes` is or-defaulted to null (a JS-falsy empty string becomes
null). -/
def upsertVideoRow (v : UpsertVideoInput) : VideoRow :=
  { id := v.id
    title := v.title
    published_at := v.published_at
    duration_sec := match v.duration_sec with | some 0 => none | x => x
    status := v.status.getD .queued
    processed_at := v.processed_at
    notes := match v.notes with | some "" => none | x => x }

/-- `upsertVideo(video)`: upsert on conflict `id`. -/
def upsertVideo (v : UpsertVideoInput) (db : DB) : DB :=
  { db with videos := upsertBy (fun r => r.id) (upsertVideoRow v) db.videos }

/-- `markVideoSucceeded(videoId)`: update the matching rows to status
`succeeded` with `processed_at` set to now. -/
def markVideoSucceeded (videoId : String) (now : Nat) (db : DB) : DB :=
  { db with videos := db.videos.map (fun v =>
      if v.id = videoId then { v with status := .succeeded, processed_at := some now } else v) }

/-- `markVideoFailed(videoId, errorMessage)`: update the matching rows
to status `failed` with `processed_at` set to now and `notes` set to
the error message. -/
def markVideoFailed (videoId : String) (errorMessage : String) (now : Nat) (db : DB) : DB :=
  { db with videos := db.videos.map (fun v =>
      if v.id = videoId then
        { v with status := .failed, processed_at := some now, notes := some errorMessage }
      else v) }

/-- `getVideosByStatus(status)` (the `ORDER BY published_at DESC` is
not modelled). -/
def getVideosByStatus (status : VideoStatus) (db : DB) : List VideoRow :=
  db.videos.filter (fun v => v.status == status)

/-- The argument record of `insertTranscript`. -/
structure InsertTranscriptInput where
  video_id : String
  text : String
  language : Option String := none
  source : Option String := none
deriving DecidableEq, Repr

/-- The row `insertTranscript` writes: `source` is or-defaulted to
`deepgram` and `language` is or-defaulted to null. -/
def transcriptRowOf (t : InsertTranscriptInput) : TranscriptRow :=
  { video_id := t.video_id
    source := match t.source with | some "" => "deepgram" | some s => s | none => "deepgram"
    language := match t.language with | some "" => none | x => x
    text := t.text }

/-- `insertTranscript(transcript)`: upsert on conflict `video_id`. -/
def insertTranscript (t : InsertTranscriptInput) (db : DB) : DB :=
  { db with transcripts := upsertBy (fun r => r.video_id) (transcriptRowOf t) db.transcripts }

/-- `fetchTranscriptByVideoId(videoId)`: `single()` row or `null`. -/
def fetchTranscriptByVideoId (videoId : String) (db : DB) : Option TranscriptRow :=
  db.transcripts.find? (fun t => t.video_id == videoId)

/-- The argument record of `upsertAnalysis`. -/
structure UpsertAnalysisInput where
  video_id : String
  agent_type : AgentType
  players : List Player
  summary : String
  confidence : Level
  raw_response : Option String := none
  /-- Accepted by `upsertAnalysis` but never written to the table. -/
  notes : Option String := none
deriving DecidableEq, Repr

/-- The row `upsertAnalysis` writes
(`raw_response: analysis.raw_response || null`). -/
def analysisRowOf (a : UpsertAnalysisInput) : AnalysisRow :=
  { video_id := a.video_id
    agent_type := a.agent_type
    players := a.players
    summary := a.summary
    confidence := a.confidence
    raw_response := match a.raw_response with | some "" => none | x => x }

/-- `upsertAnalysis(analysis)`: upsert on conflict `(video_id, agent_type)`. -/
def upsertAnalysis (a : UpsertAnalysisInput) (db : DB) : DB :=
  { db with analyses := upsertBy (fun r => (r.video_id, r.agent_type)) (analysisRowOf a) db.analyses }

/-- `fetchAnalysisByVideoIdAndType(videoId, agentType)`. -/
def fetchAnalysisByVideoIdAndType (videoId : String) (agentType : AgentType) (db : DB) :
    Option AnalysisRow :=
  db.analyses.find? (fun a => a.video_id == videoId && a.agent_type == agentType)

/-- Status of a video row by id (a read helper for stating theorems). -/
def videoStatusOf (db : DB) (videoId : String) : Option VideoStatus :=
  (db.videos.find? (fun v => v.id == videoId)).map (fun v => v.status)

/-- Notes of a video row by id (a read helper for stating theorems). -/
def videoNotesOf (db : DB) (videoId : String) : Option (Option String) :=
  (db.videos.find? (fun v => v.id == videoId)).map (fun v => v.notes)

/-! ## Agent output schema: `lib/agents/shared.ts`

`PlayerSchema` and `AnalysisOutputSchema` are zod object schemas; the
agents declare them as their structured-output contract
(`Output.object({schema: AnalysisOutputSchema})`). We embed a JSON
value type and the validator the declared schemas denote: a required
field must be present and well-typed, an `optional()` field may be
absent, an ill-typed present field fails, nothing is defaulted. -/

/-- JSON values (numbers restricted to integers; no schema field here
needs fractional values). -/
inductive Json where
  | str (s : String)
  | num (n : Int)
  | boolean (b : Bool)
  | null
  | arr (elems : List Json)
  | obj (fields : List (String × Json))

/-- Field lookup in a JSON object literal (first binding wins). -/
def getField (fields : List (String × Json)) (k : String) : Option Json :=
  (fields.find? (fun p => p.1 = k)).map (fun p => p.2)

/-- `z.string()`. -/
def parseString : Json → Option String
  | .str s => some s
  | _ => none

/-- `z.number()`. -/
def parseNumber : Json → Option Int
  | .num n => some n
  | _ => none

/-- The zod enum of HIGH, MEDIUM, LOW. -/
def parseLevel : Json → Option Level
  | .str s =>
    if s = "HIGH" then some .HIGH
    else if s = "MEDIUM" then some .MEDIUM
    else if s = "LOW" then some .LOW
    else none
  | _ => none

/-- An `optional()` field: absent is fine, present must parse. -/
def parseOptionalField {α : Type} (parse : Json → Option α)
    (fields : List (String × Json)) (k : String) : Option (Option α) :=
  match getField fields k with
  | none => some none
  | some v => (parse v).map some

/-- A required field: must be present and parse. -/
def parseRequiredField {α : Type} (parse : Json → Option α)
    (fields : List (String × Json)) (k : String) : Option α :=
  (getField fields k).bind parse

/-- `PlayerSchema.parse`: required `name`, `urgency`, `reasoning`;
optional `team`, `position`, `roster_percentage`, `context`. -/
def parsePlayer : Json → Option Player
  | .obj fields => do
    let name ← parseRequiredField parseString fields "name"
    let team ← parseOptionalField parseString fields "team"
    let position ← parseOptionalField parseString fields "position"
    let urgency ← parseRequiredField parseLevel fields "urgency"
    let reasoning ← parseRequiredField parseString fields "reasoning"
    let roster_percentage ← parseOptionalField parseNumber fields "roster_percentage"
    let context ← parseOptionalField parseString fields "context"
    pure { name, team, position, urgency, reasoning, roster_percentage, context }
  | _ => none

/-- `z.array(PlayerSchema)`: every element must parse. -/
def parsePlayers : Json → Option (List Player)
  | .arr elems => elems.mapM parsePlayer
  | _ => none

/-- The structured output of `AnalysisOutputSchema`. -/
structure AnalysisOutput where
  players : List Player
  summary : String
  confidence : Level
  notes : Option String := none
deriving DecidableEq, Repr

/-- `AnalysisOutputSchema.parse`: required `players`, `summary`,
`confidence`; optional `notes`. A missing or ill-typed required field
yields `none` — there is no defaulting or coercion. -/
def parseAnalysisOutput : Json → Option AnalysisOutput
  | .obj fields => do
    let players ← parseRequiredField parsePlayers fields "players"
    let summary ← parseRequiredField parseString fields "summary"
    let confidence ← parseRequiredField parseLevel fields "confidence"
    let notes ← parseOptionalField parseString fields "notes"
    pure { players, summary, confidence, notes }
  | _ => none

/-- The string a `Level` came from in JSON. -/
def levelString : Level → String
  | .HIGH => "HIGH"
  | .MEDIUM => "MEDIUM"
  | .LOW => "LOW"

/-! ## The batch driver: `app/api/cron/process-new-videos/route.ts`

The `GET` cron handler, on its authorized path with a successful
catalog fetch. External effects become parameters:

* `perAttempt : String → Nat → AttemptOutcome` — what each `fetch`
  attempt of `transcribeVideo` yields for a given video id;
* `agent : String → Except String AgentRunResult` — the
  `mustRosterAgent.generate` call on a transcript text (`.error e`
  models a thrown `Error` with message `e`);
* `durToSec : String → Nat` — `durationToSeconds` from `lib/youtube`;
* `now : Nat` — the wall clock used by the `processed_at` timestamps.

`sendPlayerNotification` is fire-and-forget (it swallows transport
failures), so an invocation is recorded as a `NotificationData` value
appended to a list. -/

/-- One entry of the `listChannelUploads` result used by the cron
(`id`, `title`, `publishedAt`, ISO `duration`). -/
structure Upload where
  id : String
  title : String
  publishedAt : String
  duration : Option String := none
deriving DecidableEq, Repr

/-- The `ProcessingSummary` accumulated by the cron handler. -/
structure Summary where
  videosChecked : Nat := 0
  newVideosFound : Nat := 0
  videosProcessed : Nat := 0
  transcriptionsSucceeded : Nat := 0
  transcriptionsFailed : Nat := 0
  analysesCompleted : Nat := 0
  highUrgencyPlayersFound : Nat := 0
  notificationsSent : Nat := 0
  errors : List String := []
deriving DecidableEq, Repr

/-- The argument record of `sendPlayerNotification` (one recorded
invocation of the Discord notifier). -/
structure NotificationData where
  videoId : String
  videoTitle : String
  players : List Player
  summary : String
  confidence : Level
deriving DecidableEq, Repr

/-- What `mustRosterAgent.generate` resolves to: the schema-validated
structured output (`result.experimental_output`) and the raw text
(`result.text`). -/
structure AgentRunResult where
  output : AnalysisOutput
  text : String
deriving DecidableEq, Repr

/-- The evolving state of one cron run: the store, the summary, and
the notifier invocations made so far. -/
structure CronState where
  db : DB
  summary : Summary
  notifications : List NotificationData
deriving DecidableEq, Repr

/-- The per-video `catch` block: push the error message, count the
failure, and `markVideoFailed` with the raw message. -/
def failVideo (v : VideoRow) (msg : String) (now : Nat) (st : CronState) : CronState :=
  { st with
    db := markVideoFailed v.id msg now st.db
    summary := { st.summary with
      errors := st.summary.errors ++ ["Failed to process video " ++ v.id ++ ": " ++ msg]
      transcriptionsFailed := st.summary.transcriptionsFailed + 1 } }

/-- The claim step of the cron: `upsertVideo` with status `processing`,
an unconditional upsert of the row that re-sends the metadata already
held by the video row. -/
def claimStep (v : VideoRow) (db : DB) : DB :=
  upsertVideo
    { id := v.id
      title := v.title
      published_at := v.published_at
      duration_sec := v.duration_sec
      status := some .processing } db

/-- Steps 3b–3d of the per-video `try` block: `markVideoSucceeded`,
re-fetch the transcript (throwing when missing or empty), run the
agent, `upsertAnalysis`, filter the HIGH-urgency players and notify
when at least one is present. A thrown error lands in `failVideo`. -/
def analysisSteps (agent : String → Except String AgentRunResult) (now : Nat)
    (v : VideoRow) (st : CronState) : CronState :=
  let db1 := markVideoSucceeded v.id now st.db
  match fetchTranscriptByVideoId v.id db1 with
  | none => failVideo v "Transcript not found or empty after transcription" now { st with db := db1 }
  | some t =>
    if t.text = "" then
      failVideo v "Transcript not found or empty after transcription" now { st with db := db1 }
    else
      match agent t.text with
      | .error e => failVideo v e now { st with db := db1 }
      | .ok r =>
        let db2 := upsertAnalysis
          { video_id := v.id
            agent_type := .must_roster
            players := r.output.players
            summary := r.output.summary
            confidence := r.output.confidence
            raw_response := some r.text
            notes := r.output.notes } db1
        let s2 := { st.summary with analysesCompleted := st.summary.analysesCompleted + 1 }
        let high := r.output.players.filter (fun p => p.urgency == Level.HIGH)
        if high.length > 0 then
          { db := db2
            summary := { s2 with
              highUrgencyPlayersFound := s2.highUrgencyPlayersFound + high.length
              notificationsSent := s2.notificationsSent + 1 }
            notifications := st.notifications ++
              [{ videoId := v.id, videoTitle := v.title, players := high,
                 summary := r.output.summary, confidence := r.output.confidence }] }
        else
          { db := db2, summary := s2, notifications := st.notifications }

/-- The body of the per-video loop (step 3): count the video, skip
transcription when a transcript already exists, otherwise claim the
video, run `transcribeVideo` and persist the transcript; then the
analysis steps. A transcription failure lands in `failVideo`. -/
def processVideo (perAttempt : String → Nat → AttemptOutcome)
    (agent : String → Except String AgentRunResult) (now : Nat)
    (v : VideoRow) (st : CronState) : CronState :=
  let st := { st with summary :=
    { st.summary with videosProcessed := st.summary.videosProcessed + 1 } }
  match fetchTranscriptByVideoId v.id st.db with
  | some _ => analysisSteps agent now v st
  | none =>
    let db1 := claimStep v st.db
    let tres := transcribeVideo (perAttempt v.id)
    match tres.result with
    | .error e => failVideo v e now { st with db := db1 }
    | .ok resp =>
      let db2 := insertTranscript
        { video_id := v.id
          text := resp.text
          language := some resp.language
          source := some "deepgram" } db1
      analysisSteps agent now v
        { st with db := db2, summary :=
          { st.summary with transcriptionsSucceeded := st.summary.transcriptionsSucceeded + 1 } }

/-- The step-2 new-video filter: the uploads whose ids are not already
present in the store. -/
def newUploads (uploads : List Upload) (db : DB) : List Upload :=
  let existingIds := selectVideoIds (uploads.map (fun u => u.id)) db
  uploads.filter (fun u => ! existingIds.contains u.id)

/-- Step 2: queue each new upload with status `queued` — where the
duration in seconds is computed by `durationToSeconds` when the ISO
duration is present and not JS-falsy (empty) — and count it. -/
def queueNewVideos (durToSec : String → Nat) (uploads : List Upload) (st : CronState) :
    CronState :=
  (newUploads uploads st.db).foldl (fun st u =>
    let durationSec : Option Nat :=
      match u.duration with
      | none => none
      | some d => if d = "" then none else some (durToSec d)
    { st with
      db := upsertVideo
        { id := u.id
          title := u.title
          published_at := u.publishedAt
          duration_sec := durationSec
          status := some .queued } st.db
      summary := { st.summary with newVideosFound := st.summary.newVideosFound + 1 } }) st

/-- One cron run (authorized, catalog fetch succeeded): record
`videosChecked`, queue the new uploads, then process every queued
video in order. -/
def cronRun (perAttempt : String → Nat → AttemptOutcome)
    (agent : String → Except String AgentRunResult)
    (durToSec : String → Nat) (now : Nat)
    (uploads : List Upload) (db0 : DB) : CronState :=
  let st0 : CronState :=
    { db := db0, summary := { videosChecked := uploads.length }, notifications := [] }
  let st1 := queueNewVideos durToSec uploads st0
  let queued := getVideosByStatus .queued st1.db
  queued.foldl (fun st v => processVideo perAttempt agent now v st) st1

/-- A transient attempt failure: an error that the non-retryable check
of the client lets through to the next iteration. -/
def IsTransient (o : AttemptOutcome) : Prop :=
  ∃ m, o = .failure m ∧ nonRetryable m = false

/-! ## Lemmas about the `transcribeVideo` attempt loop -/

theorem transcribeLoop_attempts_le (outcome : Nat → AttemptOutcome) (retries : Nat) :
    ∀ remaining attempt lastError made,
      (transcribeLoop outcome retries attempt remaining lastError made).attempts ≤
        made + remaining := by
  intro remaining
  induction remaining with
  | zero => intro attempt lastError made; simp [transcribeLoop]
  | succ n ih =>
    intro attempt lastError made
    simp only [transcribeLoop]
    split
    · simp
    · split
      · simp
      · exact le_trans (ih (attempt + 1) _ (made + 1)) (by omega)

theorem transcribeLoop_all_transient (outcome : Nat → AttemptOutcome) (retries : Nat) :
    ∀ remaining attempt lastError made,
      (∀ i, attempt ≤ i → i < attempt + remaining → IsTransient (outcome i)) →
      (∃ last, (transcribeLoop outcome retries attempt remaining lastError made).result =
          .error (terminalMsg retries last)) ∧
      (transcribeLoop outcome retries attempt remaining lastError made).attempts =
        made + remaining := by
  intro remaining
  induction remaining with
  | zero =>
    intro attempt lastError made _
    exact ⟨⟨lastError, rfl⟩, by simp [transcribeLoop]⟩
  | succ n ih =>
    intro attempt lastError made htrans
    obtain ⟨m, hm, hnr⟩ := htrans attempt (le_refl _) (by omega)
    simp only [transcribeLoop, hm]
    rw [if_neg (by simp [hnr])]
    have := ih (attempt + 1) (some m) (made + 1)
      (fun i h1 h2 => htrans i (by omega) (by omega))
    refine ⟨this.1, ?_⟩
    rw [this.2]; omega

theorem transcribeLoop_success (outcome : Nat → AttemptOutcome) (retries : Nat) :
    ∀ remaining attempt lastError made j resp,
      attempt ≤ j → j < attempt + remaining →
      (∀ i, attempt ≤ i → i < j → IsTransient (outcome i)) →
      outcome j = .success resp →
      (transcribeLoop outcome retries attempt remaining lastError made).result = .ok resp ∧
      (transcribeLoop outcome retries attempt remaining lastError made).attempts =
        made + (j - attempt) + 1 := by
  intro remaining
  induction remaining with
  | zero => intro attempt lastError made j resp h1 h2 _ _; omega
  | succ n ih =>
    intro attempt lastError made j resp h1 h2 htrans hsucc
    rcases Nat.eq_or_lt_of_le h1 with heq | hlt
    · subst heq
      simp only [transcribeLoop, hsucc]
      exact ⟨by simp, by simp⟩
    · obtain ⟨m, hm, hnr⟩ := htrans attempt (le_refl _) hlt
      simp only [transcribeLoop, hm]
      rw [if_neg (by simp [hnr])]
      have := ih (attempt + 1) (some m) (made + 1) j resp (by omega) (by omega)
        (fun i hi1 hi2 => htrans i (by omega) hi2) hsucc
      refine ⟨this.1, ?_⟩
      rw [this.2]; omega

theorem transcribeLoop_nonretryable (outcome : Nat → AttemptOutcome) (retries : Nat) :
    ∀ remaining attempt lastError made j m,
      attempt ≤ j → j < attempt + remaining →
      (∀ i, attempt ≤ i → i < j → IsTransient (outcome i)) →
      outcome j = .failure m → nonRetryable m = true →
      (transcribeLoop outcome retries attempt remaining lastError made).result =
        .error (terminalMsg retries (some m)) ∧
      (transcribeLoop outcome retries attempt remaining lastError made).attempts =
        made + (j - attempt) + 1 := by
  intro remaining
  induction remaining with
  | zero => intro attempt lastError made j m h1 h2 _ _ _; omega
  | succ n ih =>
    intro attempt lastError made j m h1 h2 htrans hfail hnr
    rcases Nat.eq_or_lt_of_le h1 with heq | hlt
    · subst heq
      simp only [transcribeLoop, hfail]
      rw [if_pos hnr]
      exact ⟨by simp, by simp⟩
    · obtain ⟨m', hm', hnr'⟩ := htrans attempt (le_refl _) hlt
      simp only [transcribeLoop, hm']
      rw [if_neg (by simp [hnr'])]
      have := ih (attempt + 1) (some m') (made + 1) j m (by omega) (by omega)
        (fun i hi1 hi2 => htrans i (by omega) hi2) hfail hnr
      refine ⟨this.1, ?_⟩
      rw [this.2]; omega

/-! ## Claims C2 and C3: the Dispatch Client retry policy -/

/-- C2: for every configured retry count `retries` (default 2, i.e.
`retries + 1` attempts), `transcribeVideo` makes at most `retries + 1`
attempts; if every attempt fails transiently, exactly `retries + 1`
attempts are made and the terminal-failure error is thrown; if the
worker fails transiently on the first `retries` attempts and then
succeeds, the successful response is returned within `retries + 1`
attempts. -/
theorem transcribeVideo_retry_bound (outcome : Nat → AttemptOutcome) (retries : Nat) :
    (transcribeVideo outcome retries).attempts ≤ retries + 1 ∧
    ((∀ i, i ≤ retries → IsTransient (outcome i)) →
      (∃ last, (transcribeVideo outcome retries).result = .error (terminalMsg retries last)) ∧
      (transcribeVideo outcome retries).attempts = retries + 1) ∧
    (∀ resp, (∀ i, i < retries → IsTransient (outcome i)) →
      outcome retries = .success resp →
      (transcribeVideo outcome retries).result = .ok resp ∧
      (transcribeVideo outcome retries).attempts = retries + 1) := by
  refine ⟨?_, ?_, ?_⟩
  · have := transcribeLoop_attempts_le outcome retries (retries + 1) 0 none 0
    simpa [transcribeVideo] using this
  · intro h
    have := transcribeLoop_all_transient outcome retries (retries + 1) 0 none 0
      (fun i _ h2 => h i (by omega))
    simpa [transcribeVideo] using this
  · intro resp h hsucc
    have := transcribeLoop_success outcome retries (retries + 1) 0 none 0 retries resp
      (by omega) (by omega) (fun i _ h2 => h i h2) hsucc
    simpa [transcribeVideo] using this

/-- A worker that answers the first two attempts with a transient
failure and the third with success. -/
def witnessOutcome : Nat → AttemptOutcome :=
  fun i => if i < 2 then .failure "boom" else .success ⟨10, "t", "en"⟩

/-- Witness for C2 at `retries = 2`: two transient failures then a
success completes in exactly 3 attempts. -/
theorem transcribeVideo_retry_bound_witness :
    (transcribeVideo witnessOutcome 2).result = .ok ⟨10, "t", "en"⟩ ∧
    (transcribeVideo witnessOutcome 2).attempts = 3 :=
  (transcribeVideo_retry_bound witnessOutcome 2).2.2 ⟨10, "t", "en"⟩
    (fun i hi => ⟨"boom", by simp [witnessOutcome, hi], by decide⟩)
    (by simp [witnessOutcome])

/-- A worker whose every response is the missing-signature 401
rejection, as the client sees it. -/
def missingSigOutcome : Nat → AttemptOutcome :=
  fun _ => .failure (clientErrorMessage { error := "Missing signature" })

/-- C3 counterexample: the missing-signature rejection of the worker
reaches the client as the message `Media Worker error: Missing
signature`, which matches none of the non-retryable patterns
(`Invalid signature` / `400` / `401`) — so, contrary to C3, this
authentication-class failure IS retried: with the default 2 retries,
3 attempts are made rather than 1. -/
theorem missing_signature_is_retried :
    nonRetryable (clientErrorMessage { error := "Missing signature" }) = false ∧
    (transcribeVideo missingSigOutcome 2).attempts = 3 ∧
    (transcribeVideo missingSigOutcome 2).result =
      .error "Transcription failed after 3 attempts: Media Worker error: Missing signature" :=
  ⟨by decide, by decide, by decide⟩

/-- C3 (amended): an attempt failing with a message that matches the
non-retryable check of the client (it contains `Invalid signature`,
`400` or `401`) aborts the loop immediately: no further attempts are
made and the terminal failure is surfaced at once. The
invalid-signature rejection of the worker matches the check; its
missing-signature rejection does not (it is retried until the bound,
see the counterexample). -/
theorem transcribeVideo_nonretryable_aborts (outcome : Nat → AttemptOutcome)
    (retries j : Nat) (m : String) (hj : j ≤ retries)
    (htrans : ∀ i, i < j → IsTransient (outcome i))
    (hfail : outcome j = .failure m) (hnr : nonRetryable m = true) :
    (transcribeVideo outcome retries).result = .error (terminalMsg retries (some m)) ∧
    (transcribeVideo outcome retries).attempts = j + 1 ∧
    nonRetryable (clientErrorMessage { error := "Invalid signature" }) = true := by
  have := transcribeLoop_nonretryable outcome retries (retries + 1) 0 none 0 j m
    (by omega) (by omega) (fun i _ h2 => htrans i h2) hfail hnr
  refine ⟨?_, ?_, by decide⟩
  · simpa [transcribeVideo] using this.1
  · have h2 := this.2
    simp only [transcribeVideo] at h2 ⊢
    omega

/-- A worker whose every response is the invalid-signature 401
rejection, as the client sees it. -/
def invalidSigOutcome : Nat → AttemptOutcome :=
  fun _ => .failure (clientErrorMessage { error := "Invalid signature" })

/-- Witness for the amended C3: an invalid-signature rejection on the
first attempt stops the loop after exactly 1 attempt. -/
theorem transcribeVideo_nonretryable_aborts_witness :
    (transcribeVideo invalidSigOutcome 2).result =
      .error (terminalMsg 2 (some (clientErrorMessage { error := "Invalid signature" }))) ∧
    (transcribeVideo invalidSigOutcome 2).attempts = 0 + 1 := by
  have := transcribeVideo_nonretryable_aborts invalidSigOutcome 2 0
    (clientErrorMessage { error := "Invalid signature" }) (by omega)
    (fun i hi => absurd hi (by omega)) rfl (by decide)
  exact ⟨this.1, this.2.1⟩

/-! ## Claims C10 and C4: signing round-trip and the worker gate -/

/-- C10: signing and verifying round-trip — for every body, every
shared secret, every serialization and every keyed-MAC primitive,
verifying the signature generated over the same serialized body with
the same secret succeeds (returns `true`, no length error), for both
the client-side verifier and the independently implemented verifier of
the worker. -/
theorem signature_roundtrip {Body : Type} (hmacHex : String → String → String)
    (serialize : Body → String) (body : Body) (secret : String) :
    verifySignature hmacHex serialize body
      (generateSignature hmacHex serialize body secret) secret = .ok true ∧
    workerVerifySignature hmacHex serialize body
      (generateSignature hmacHex serialize body secret) secret = .ok true := by
  constructor <;>
    simp [verifySignature, workerVerifySignature, generateSignature, timingSafeEqual]

/-- Witness for C10 at a concrete body, secret and MAC function. -/
theorem signature_roundtrip_witness :
    verifySignature (fun _ p => p ++ "!") (fun s : String => s) "body"
      (generateSignature (fun _ p => p ++ "!") (fun s : String => s) "body" "secret")
      "secret" = .ok true ∧
    workerVerifySignature (fun _ p => p ++ "!") (fun s : String => s) "body"
      (generateSignature (fun _ p => p ++ "!") (fun s : String => s) "body" "secret")
      "secret" = .ok true :=
  signature_roundtrip (fun _ p => p ++ "!") (fun s : String => s) "body" "secret"

/-- A 64-character hex string, the length of an HMAC-SHA256 hex digest. -/
def hex64 : String := "aaaaaaaaaaaaaaaaaaaaaaaaaaaaaaaaaaaaaaaaaaaaaaaaaaaaaaaaaaaaaaaa"

/-- A different 64-character string. -/
def hex64b : String := "bbbbbbbbbbbbbbbbbbbbbbbbbbbbbbbbbbbbbbbbbbbbbbbbbbbbbbbbbbbbbbbb"

/-- A MAC primitive that always produces `hex64` (enough to drive the
comparison of the handler at concrete inputs). -/
def constHmac : String → String → String := fun _ _ => hex64

/-- A well-formed request body for the gate counterexample. -/
def c4Body : WorkerRequestBody := { videoUrl := some "https://example.com/v" }

/-- Pipeline stages that would all succeed if reached. -/
def c4Outcomes : WorkerStageOutcomes := ⟨.ok (), .ok (), .ok ⟨1, "t", "en"⟩⟩

/-- C4 counterexample: a received signature whose byte length differs
from the recomputed 64-character hex digest (here `"abc"`) makes
`crypto.timingSafeEqual` throw a `RangeError` inside the `try` of the
handler, so the worker answers 500 `Transcription failed` — a processing
error, NOT the 401 authentication error the claim requires for every
received signature value. (No pipeline stage runs, so the zero-work
half of the claim still holds at this input.) -/
theorem short_signature_gets_500 :
    (transcribeHandler constHmac (fun _ => "payload") "secret" c4Outcomes c4Body
        (some "abc")).1.status = 500 ∧
    ¬ (transcribeHandler constHmac (fun _ => "payload") "secret" c4Outcomes c4Body
        (some "abc")).1.status = 401 ∧
    (transcribeHandler constHmac (fun _ => "payload") "secret" c4Outcomes c4Body
        (some "abc")).2 = [] := by
  refine ⟨by decide, by decide, by decide⟩

/-- C4 (amended): the worker rejects, before any download, transcode or
STT-backend work (the performed-stage list is empty in all three
cases): a missing `X-Signature` header with 401 `Missing signature`;
a received signature of the same length as the recomputed hex digest
but different from it with 401 `Invalid signature`; and a received
signature whose length differs with a 500 processing error, because
the length mismatch makes the constant-time comparison throw inside
the `try` block of the handler. -/
theorem signature_rejection_zero_work (hmacHex : String → String → String)
    (serialize : WorkerRequestBody → String) (secret : String)
    (outcomes : WorkerStageOutcomes) (body : WorkerRequestBody) :
    (transcribeHandler hmacHex serialize secret outcomes body none).1 =
        ⟨401, some ⟨"Missing signature", none⟩⟩ ∧
    (transcribeHandler hmacHex serialize secret outcomes body none).2 = [] ∧
    (∀ r, (hmacHex secret (serialize body)).length = r.length →
      hmacHex secret (serialize body) ≠ r →
      (transcribeHandler hmacHex serialize secret outcomes body (some r)).1 =
          ⟨401, some ⟨"Invalid signature", none⟩⟩ ∧
      (transcribeHandler hmacHex serialize secret outcomes body (some r)).2 = []) ∧
    (∀ r, ¬ (hmacHex secret (serialize body)).length = r.length →
      (transcribeHandler hmacHex serialize secret outcomes body (some r)).1.status = 500 ∧
      (transcribeHandler hmacHex serialize secret outcomes body (some r)).2 = []) := by
  refine ⟨rfl, rfl, ?_, ?_⟩
  · intro r hlen hne
    have hdec : decide (hmacHex secret (serialize body) = r) = false := by
      simp [hne]
    simp [transcribeHandler, workerVerifySignature, timingSafeEqual, hlen, hdec]
  · intro r hlen
    simp [transcribeHandler, workerVerifySignature, timingSafeEqual, hlen]

/-- Witness for the amended C4: at the constant MAC, a missing header
yields 401 with no work; a same-length wrong signature yields 401
`Invalid signature` with no work; a short signature yields 500 with no
work. -/
theorem signature_rejection_zero_work_witness :
    (transcribeHandler constHmac (fun _ => "payload") "secret" c4Outcomes c4Body none).1 =
        ⟨401, some ⟨"Missing signature", none⟩⟩ ∧
    (transcribeHandler constHmac (fun _ => "payload") "secret" c4Outcomes c4Body
        (some hex64b)).1 = ⟨401, some ⟨"Invalid signature", none⟩⟩ ∧
    (transcribeHandler constHmac (fun _ => "payload") "secret" c4Outcomes c4Body
        (some hex64b)).2 = [] ∧
    (transcribeHandler constHmac (fun _ => "payload") "secret" c4Outcomes c4Body
        (some "x")).1.status = 500 := by
  have h := signature_rejection_zero_work constHmac (fun _ => "payload") "secret"
    c4Outcomes c4Body
  have h2 := h.2.2.1 hex64b (by decide) (by decide)
  have h3 := h.2.2.2 "x" (by decide)
  exact ⟨h.1, h2.1, h2.2, h3.1⟩

/-! ## Claim C1: the claim step is not a compare-and-set -/

theorem upsertBy_idem {α κ : Type} [DecidableEq κ] (key : α → κ) (x : α) (l : List α) :
    upsertBy key x (upsertBy key x l) = upsertBy key x l := by
  induction l with
  | nil => simp [upsertBy]
  | cons y ys ih =>
    by_cases h : key y = key x
    · simp [upsertBy, h]
    · simp [upsertBy, h, ih]

theorem upsertBy_find? {α κ : Type} [DecidableEq κ] (key : α → κ) (x : α) (l : List α) :
    (upsertBy key x l).find? (fun a => key a == key x) = some x := by
  induction l with
  | nil => simp [upsertBy]
  | cons y ys ih =>
    by_cases h : key y = key x
    · simp [upsertBy, h]
    · simp [upsertBy, h, ih]

theorem videoStatusOf_upsertVideo (inp : UpsertVideoInput) (db : DB) :
    videoStatusOf (upsertVideo inp db) inp.id = some (upsertVideoRow inp).status := by
  have h := upsertBy_find? (fun r : VideoRow => r.id) (upsertVideoRow inp) db.videos
  simp only [videoStatusOf, upsertVideo]
  rw [show (fun v : VideoRow => v.id == inp.id) =
      (fun a : VideoRow => a.id == (upsertVideoRow inp).id) from rfl]
  rw [h]
  rfl

/-- A video row already in terminal status `succeeded`. -/
def vSucceeded : VideoRow :=
  { id := "A", title := "t", published_at := "p", duration_sec := none,
    status := .succeeded, processed_at := some 5, notes := some "done" }

/-- A store holding only `vSucceeded`. -/
def dbSucceeded : DB := ⟨[vSucceeded], [], []⟩

/-- C1 counterexample: the claim operation the cron actually performs
(`upsertVideo` with status `processing`) on an item NOT in status
`queued` is not a no-op returning false: on an item in terminal status
`succeeded` it overwrites the status back to `processing` (and clears
the notes), and it reports no failure. -/
theorem claim_not_cas_counterexample :
    videoStatusOf dbSucceeded "A" = some .succeeded ∧
    videoStatusOf (claimStep vSucceeded dbSucceeded) "A" = some .processing ∧
    videoNotesOf (claimStep vSucceeded dbSucceeded) "A" = some none := by
  refine ⟨by decide, by decide, by decide⟩

/-- C1 (amended): the claim step of the cron is an unconditional
upsert, not an atomic compare-and-set: whatever the current status of
the item (including absent, already-`processing` or terminal), the
claim step leaves the row of the item in status `processing` and returns no
success/failure indication; a second identical claim call is an
idempotent overwrite rather than a failed no-op, so of two claim calls
on the same item both apply the queued→processing transition and
neither is distinguishable as the losing call. -/
theorem claimStep_unconditional (v : VideoRow) (db : DB) :
    videoStatusOf (claimStep v db) v.id = some .processing ∧
    claimStep v (claimStep v db) = claimStep v db := by
  constructor
  · exact videoStatusOf_upsertVideo
      { id := v.id, title := v.title, published_at := v.published_at,
        duration_sec := v.duration_sec, status := some .processing } db
  · simp [claimStep, upsertVideo, upsertBy_idem]

/-- A queued video row. -/
def vQueuedW : VideoRow :=
  { id := "Q", title := "q", published_at := "p", duration_sec := some 3,
    status := .queued, processed_at := none, notes := none }

/-- Witness for the amended C1: concrete claim on a queued item. -/
theorem claimStep_unconditional_witness :
    videoStatusOf (claimStep vQueuedW ⟨[vQueuedW], [], []⟩) vQueuedW.id = some .processing ∧
    claimStep vQueuedW (claimStep vQueuedW ⟨[vQueuedW], [], []⟩) =
      claimStep vQueuedW ⟨[vQueuedW], [], []⟩ :=
  claimStep_unconditional vQueuedW ⟨[vQueuedW], [], []⟩

/-! ## Claim C7: schema enforcement -/

theorem parseLevel_inv (j : Json) (l : Level) (h : parseLevel j = some l) :
    j = .str (levelString l) := by
  cases j <;> simp [parseLevel] at h
  case str s =>
    split_ifs at h with h1 h2 h3
    · subst h1; cases h; rfl
    · subst h2; cases h; rfl
    · subst h3; cases h; rfl

/-- C7: the declared output schema is enforced with neither defaulting
nor coercion: (a) an object missing the required `confidence` field
never validates; (b) whenever validation succeeds, the input was an
object whose `confidence` field holds verbatim the enum string of the
confidence of the output (nothing was defaulted or coerced); (c) a player
object missing the required `urgency` field never validates. -/
theorem analysis_schema_enforced :
    (∀ fields, getField fields "confidence" = none →
      parseAnalysisOutput (.obj fields) = none) ∧
    (∀ j o, parseAnalysisOutput j = some o →
      ∃ fields, j = .obj fields ∧
        getField fields "confidence" = some (.str (levelString o.confidence))) ∧
    (∀ fields, getField fields "urgency" = none →
      parsePlayer (.obj fields) = none) := by
  refine ⟨?_, ?_, ?_⟩
  · intro fields h
    unfold parseAnalysisOutput
    cases h1 : parseRequiredField parsePlayers fields "players" with
    | none => simp [h1]
    | some ps =>
      cases h2 : parseRequiredField parseString fields "summary" with
      | none => simp [h1, h2]
      | some s =>
        have h3 : parseRequiredField parseLevel fields "confidence" = none := by
          simp [parseRequiredField, h]
        simp [h1, h2, h3]
  · intro j o h
    cases j <;> simp [parseAnalysisOutput] at h
    case obj fields =>
      refine ⟨fields, rfl, ?_⟩
      cases h1 : parseRequiredField parsePlayers fields "players" <;> rw [h1] at h <;>
        simp at h
      case some ps =>
        cases h2 : parseRequiredField parseString fields "summary" <;> rw [h2] at h <;>
          simp at h
        case some s =>
          cases h3 : parseRequiredField parseLevel fields "confidence" <;> rw [h3] at h <;>
            simp at h
          case some c =>
            cases h4 : parseOptionalField parseString fields "notes" <;> rw [h4] at h <;>
              simp at h
            case some n =>
              obtain ⟨v, hv, hlv⟩ := Option.bind_eq_some.mp h3
              have hc : o.confidence = c := by rw [← h]
              rw [hc, hv, parseLevel_inv v c hlv]
  · intro fields h
    unfold parsePlayer
    cases h1 : parseRequiredField parseString fields "name" with
    | none => simp [h1]
    | some nm =>
      cases h2 : parseOptionalField parseString fields "team" with
      | none => simp [h1, h2]
      | some tm =>
        cases h3 : parseOptionalField parseString fields "position" with
        | none => simp [h1, h2, h3]
        | some ps =>
          have h4 : parseRequiredField parseLevel fields "urgency" = none := by
            simp [parseRequiredField, h]
          simp [h1, h2, h3, h4]

/-- An agent response object lacking the required `confidence` field. -/
def noConfidenceJson : List (String × Json) :=
  [("players", .arr []), ("summary", .str "looks fine")]

/-- Witness for C7: the concrete no-`confidence` response is rejected. -/
theorem analysis_schema_enforced_witness :
    parseAnalysisOutput (.obj noConfidenceJson) = none :=
  analysis_schema_enforced.1 noConfidenceJson rfl

/-! ## Claim C8: the end-to-end three-video scenario -/

/-- Catalog listing: three all-new items A, B, C. -/
def uploadsABC : List Upload :=
  [ { id := "A", title := "Video A", publishedAt := "2025-01-01" },
    { id := "B", title := "Video B", publishedAt := "2025-01-02" },
    { id := "C", title := "Video C", publishedAt := "2025-01-03" } ]

/-- Worker behavior for the scenario: every attempt for B fails with a
transient 500 (yt-dlp failure), every attempt for A and C succeeds. -/
def perAttemptABC : String → Nat → AttemptOutcome := fun id _ =>
  if id = "B" then
    .failure (clientErrorMessage
      { error := "Transcription failed", details := some "yt-dlp failed with code 1" })
  else .success ⟨120, "transcript of " ++ id, "en"⟩

/-- Agent behavior for the scenario: analysis succeeds with no
players. -/
def agentABC : String → Except String AgentRunResult := fun _ =>
  .ok { output := { players := [], summary := "no players", confidence := .MEDIUM },
        text := "raw" }

/-- The scenario run: catalog [A, B, C] over an empty store. -/
def finalABC : CronState :=
  cronRun perAttemptABC agentABC (fun _ => 0) 100 uploadsABC ⟨[], [], []⟩

/-- C8: in the three-video scenario (A, B, C all new; A and C extract
successfully; B fails on all 3 attempts) one batch run ends with
A and C `succeeded`, B `failed` with non-empty notes, an analysis row
for A and C only, and a summary reporting 3 discovered, 2 succeeded,
1 failed — the failure of B did not abort the processing of C, which comes
after B in catalog order. -/
theorem end_to_end_scenario :
    videoStatusOf finalABC.db "A" = some .succeeded ∧
    videoStatusOf finalABC.db "C" = some .succeeded ∧
    videoStatusOf finalABC.db "B" = some .failed ∧
    (∃ m, videoNotesOf finalABC.db "B" = some (some m) ∧ m ≠ "") ∧
    (fetchAnalysisByVideoIdAndType "A" .must_roster finalABC.db).isSome = true ∧
    (fetchAnalysisByVideoIdAndType "C" .must_roster finalABC.db).isSome = true ∧
    (fetchAnalysisByVideoIdAndType "B" .must_roster finalABC.db).isSome = false ∧
    finalABC.summary.newVideosFound = 3 ∧
    finalABC.summary.transcriptionsSucceeded = 2 ∧
    finalABC.summary.transcriptionsFailed = 1 ∧
    finalABC.summary.videosProcessed = 3 := by
  refine ⟨by decide, by decide, by decide, ?_, by decide, by decide, by decide,
    by decide, by decide, by decide, by decide⟩
  exact ⟨"Transcription failed after 3 attempts: Media Worker error: Transcription failed - yt-dlp failed with code 1",
    by decide, by decide⟩

/-! ## Claim C9: what an analysis failure does to a succeeded item -/

theorem find?_map_id_preserving (id : String) (upd : VideoRow → VideoRow)
    (hid : ∀ v, (upd v).id = v.id) (l : List VideoRow) :
    (l.map (fun v => if v.id = id then upd v else v)).find? (fun v => v.id == id) =
      (l.find? (fun v => v.id == id)).map
        (fun v => if v.id = id then upd v else v) := by
  induction l with
  | nil => rfl
  | cons y ys ih =>
    by_cases h : y.id = id
    · simp [List.find?_cons, h, hid]
    · simp [List.find?_cons, h, ih]

theorem mark_failed_row (id e : String) (now : Nat) (db : DB)
    (h : (db.videos.find? (fun r => r.id == id)).isSome = true) :
    videoStatusOf (markVideoFailed id e now db) id = some .failed ∧
    videoNotesOf (markVideoFailed id e now db) id = some (some e) := by
  obtain ⟨w, hw⟩ := Option.isSome_iff_exists.mp h
  have hwid : w.id = id := by simpa using List.find?_some hw
  have hmap := find?_map_id_preserving id
    (fun v => { v with status := VideoStatus.failed, processed_at := some now,
                       notes := some e })
    (fun _ => rfl) db.videos
  constructor
  · show ((markVideoFailed id e now db).videos.find? (fun v => v.id == id)).map
      (fun v => v.status) = some .failed
    rw [show (markVideoFailed id e now db).videos =
        db.videos.map (fun v => if v.id = id then
          { v with status := VideoStatus.failed, processed_at := some now,
                   notes := some e } else v) from rfl]
    rw [hmap, hw]
    simp [hwid]
  · show ((markVideoFailed id e now db).videos.find? (fun v => v.id == id)).map
      (fun v => v.notes) = some (some e)
    rw [show (markVideoFailed id e now db).videos =
        db.videos.map (fun v => if v.id = id then
          { v with status := VideoStatus.failed, processed_at := some now,
                   notes := some e } else v) from rfl]
    rw [hmap, hw]
    simp [hwid]

/-- A queued video row for the analysis-failure scenario. -/
def vQueuedA : VideoRow :=
  { id := "A", title := "t", published_at := "p", duration_sec := none,
    status := .queued, processed_at := none, notes := none }

/-- A store where A is queued and its transcript is already persisted. -/
def dbWithTranscript : DB :=
  ⟨[vQueuedA], [⟨"A", "deepgram", some "en", "hello world"⟩], []⟩

/-- The per-video step on A when the agent call throws. -/
def resAgentFail : CronState :=
  processVideo (fun _ _ => .failure "unused") (fun _ => .error "agent exploded")
    100 vQueuedA ⟨dbWithTranscript, {}, []⟩

/-- C9 counterexample: the transcript of A is persisted and the flow marks A
`succeeded` right before the agent step; the agent call then throws —
and, contrary to C9, the status of A does NOT stay `succeeded`: the
per-video catch runs `markVideoFailed`, so A ends in status `failed`
with the error message in its notes and an updated `processed_at`. -/
theorem analysis_failure_reverts_status :
    videoStatusOf resAgentFail.db "A" = some .failed ∧
    videoNotesOf resAgentFail.db "A" = some (some "agent exploded") ∧
    resAgentFail.summary.transcriptionsFailed = 1 := by
  refine ⟨by decide, by decide, by decide⟩

/-- C9 (amended): for an item whose transcript is persisted, a failure
of the agent analysis step does NOT leave the item `succeeded`: the
per-video catch block marks the item `failed`, overwriting the
`succeeded` status set just before the agent ran, setting its notes to
the thrown error message and counting the item as a transcription
failure. -/
theorem analysis_failure_marks_failed (pa : String → Nat → AttemptOutcome)
    (agent : String → Except String AgentRunResult) (now : Nat)
    (v : VideoRow) (st : CronState) (t : TranscriptRow) (e : String)
    (ht : fetchTranscriptByVideoId v.id st.db = some t)
    (htext : ¬ t.text = "")
    (ha : agent t.text = .error e)
    (hrow : (st.db.videos.find? (fun r => r.id == v.id)).isSome = true) :
    videoStatusOf (processVideo pa agent now v st).db v.id = some .failed ∧
    videoNotesOf (processVideo pa agent now v st).db v.id = some (some e) ∧
    (processVideo pa agent now v st).summary.transcriptionsFailed =
      st.summary.transcriptionsFailed + 1 := by
  have hfetch1 : fetchTranscriptByVideoId v.id
      ({ st with summary := { st.summary with
        videosProcessed := st.summary.videosProcessed + 1 } } : CronState).db = some t := ht
  simp only [processVideo]
  rw [hfetch1]
  simp only [analysisSteps]
  have hfetch2 : fetchTranscriptByVideoId v.id
      (markVideoSucceeded v.id now st.db) = some t := ht
  rw [hfetch2]
  dsimp only
  rw [if_neg htext, ha]
  dsimp only
  have hrow2 : ((markVideoSucceeded v.id now st.db).videos.find?
      (fun r => r.id == v.id)).isSome = true := by
    have := find?_map_id_preserving v.id
      (fun w => { w with status := VideoStatus.succeeded, processed_at := some now })
      (fun _ => rfl) st.db.videos
    show ((st.db.videos.map (fun w => if w.id = v.id then
        { w with status := VideoStatus.succeeded, processed_at := some now }
      else w)).find? (fun r => r.id == v.id)).isSome = true
    rw [this]
    obtain ⟨w, hw⟩ := Option.isSome_iff_exists.mp hrow
    rw [hw]
    rfl
  have hmf := mark_failed_row v.id e now (markVideoSucceeded v.id now st.db) hrow2
  exact ⟨hmf.1, hmf.2, rfl⟩

/-- Witness for the amended C9: the concrete agent-failure scenario. -/
theorem analysis_failure_marks_failed_witness :
    videoStatusOf resAgentFail.db "A" = some VideoStatus.failed ∧
    videoNotesOf resAgentFail.db "A" = some (some "agent exploded") ∧
    resAgentFail.summary.transcriptionsFailed = (0 : Nat) + 1 :=
  analysis_failure_marks_failed (fun _ _ => .failure "unused")
    (fun _ => .error "agent exploded") 100 vQueuedA ⟨dbWithTranscript, {}, []⟩
    ⟨"A", "deepgram", some "en", "hello world"⟩ "agent exploded"
    rfl (by decide) rfl rfl

/-! ## Claim C5: the HIGH-urgency notification threshold -/

theorem fetchTranscript_insert (t : InsertTranscriptInput) (db : DB) :
    fetchTranscriptByVideoId t.video_id (insertTranscript t db) =
      some (transcriptRowOf t) := by
  have h := upsertBy_find? (fun r : TranscriptRow => r.video_id) (transcriptRowOf t)
    db.transcripts
  simp only [fetchTranscriptByVideoId, insertTranscript]
  rw [show (fun r : TranscriptRow => r.video_id == t.video_id) =
      (fun a : TranscriptRow => a.video_id == (transcriptRowOf t).video_id) from rfl]
  exact h

/-- C5: per analysis result, the HIGH-urgency threshold drives the
notifier: (a) the filtered list is exactly the subset of the players
of the result whose urgency is HIGH; (b) on the transcript-already-exists
path, when the agent returns result `r`, the notifier is invoked
exactly once with exactly that filtered list if it is non-empty, and
not at all if it is empty; (c) the same holds on the
fresh-transcription path. -/
theorem high_urgency_notification (pa : String → Nat → AttemptOutcome)
    (agent : String → Except String AgentRunResult) (now : Nat)
    (v : VideoRow) (st : CronState) :
    (∀ (ps : List Player) (p : Player),
        p ∈ ps.filter (fun p => p.urgency == Level.HIGH) ↔
          p ∈ ps ∧ p.urgency = Level.HIGH) ∧
    (∀ t r, fetchTranscriptByVideoId v.id st.db = some t → ¬ t.text = "" →
      agent t.text = .ok r →
      (processVideo pa agent now v st).notifications =
        st.notifications ++
          (if (r.output.players.filter (fun p => p.urgency == Level.HIGH)).length > 0 then
            [{ videoId := v.id, videoTitle := v.title,
               players := r.output.players.filter (fun p => p.urgency == Level.HIGH),
               summary := r.output.summary, confidence := r.output.confidence }]
          else [])) ∧
    (∀ resp r, fetchTranscriptByVideoId v.id st.db = none →
      (transcribeVideo (pa v.id)).result = .ok resp → ¬ resp.text = "" →
      agent resp.text = .ok r →
      (processVideo pa agent now v st).notifications =
        st.notifications ++
          (if (r.output.players.filter (fun p => p.urgency == Level.HIGH)).length > 0 then
            [{ videoId := v.id, videoTitle := v.title,
               players := r.output.players.filter (fun p => p.urgency == Level.HIGH),
               summary := r.output.summary, confidence := r.output.confidence }]
          else [])) := by
  refine ⟨?_, ?_, ?_⟩
  · intro ps p
    simp [List.mem_filter]
  · intro t r ht htext ha
    have hfetch1 : fetchTranscriptByVideoId v.id
        ({ st with summary := { st.summary with
          videosProcessed := st.summary.videosProcessed + 1 } } : CronState).db =
        some t := ht
    simp only [processVideo]
    rw [hfetch1]
    simp only [analysisSteps]
    have hfetch2 : fetchTranscriptByVideoId v.id
        (markVideoSucceeded v.id now st.db) = some t := ht
    rw [hfetch2]
    dsimp only
    rw [if_neg htext, ha]
    dsimp only
    by_cases hh :
        (r.output.players.filter (fun p => p.urgency == Level.HIGH)).length > 0
    · rw [if_pos hh, if_pos hh]
    · rw [if_neg hh, if_neg hh]
      simp
  · intro resp r ht htr htext ha
    have hfetch1 : fetchTranscriptByVideoId v.id
        ({ st with summary := { st.summary with
          videosProcessed := st.summary.videosProcessed + 1 } } : CronState).db =
        none := ht
    simp only [processVideo]
    rw [hfetch1]
    dsimp only
    rw [htr]
    dsimp only
    simp only [analysisSteps]
    have hins : fetchTranscriptByVideoId v.id
        (markVideoSucceeded v.id now (insertTranscript
          { video_id := v.id, text := resp.text, language := some resp.language,
            source := some "deepgram" } (claimStep v st.db))) =
        some (transcriptRowOf
          { video_id := v.id, text := resp.text, language := some resp.language,
            source := some "deepgram" }) :=
      fetchTranscript_insert
        { video_id := v.id, text := resp.text, language := some resp.language,
          source := some "deepgram" } (claimStep v st.db)
    rw [hins]
    dsimp only
    rw [if_neg (show ¬ (transcriptRowOf
        { video_id := v.id, text := resp.text, language := some resp.language,
          source := some "deepgram" }).text = "" from htext)]
    rw [show agent (transcriptRowOf
        { video_id := v.id, text := resp.text, language := some resp.language,
          source := some "deepgram" }).text = .ok r from ha]
    dsimp only
    by_cases hh :
        (r.output.players.filter (fun p => p.urgency == Level.HIGH)).length > 0
    · rw [if_pos hh, if_pos hh]
    · rw [if_neg hh, if_neg hh]
      simp

/-- A HIGH-urgency player finding. -/
def pHigh : Player := { name := "LeBron", urgency := .HIGH, reasoning := "must add" }

/-- A LOW-urgency player finding. -/
def pLow : Player := { name := "Role Guy", urgency := .LOW, reasoning := "meh" }

/-- An agent run returning one HIGH and one LOW player. -/
def rHigh : AgentRunResult :=
  { output := { players := [pHigh, pLow], summary := "one hot pickup", confidence := .HIGH },
    text := "raw" }

/-- An agent that always returns `rHigh`. -/
def agentHigh : String → Except String AgentRunResult := fun _ => .ok rHigh

/-- Witness for C5: on the concrete store, the notifier is invoked
exactly once, with exactly the HIGH subset of the players of the
result. -/
theorem high_urgency_notification_witness :
    (processVideo (fun _ _ => .failure "unused") agentHigh 100 vQueuedA
        ⟨dbWithTranscript, {}, []⟩).notifications =
      [] ++
        (if ((rHigh.output.players.filter
            (fun p => p.urgency == Level.HIGH)).length > 0) then
          [{ videoId := vQueuedA.id, videoTitle := vQueuedA.title,
             players := rHigh.output.players.filter (fun p => p.urgency == Level.HIGH),
             summary := rHigh.output.summary, confidence := rHigh.output.confidence }]
        else []) :=
  (high_urgency_notification (fun _ _ => .failure "unused") agentHigh 100 vQueuedA
      ⟨dbWithTranscript, {}, []⟩).2.1
    ⟨"A", "deepgram", some "en", "hello world"⟩ rHigh rfl (by decide) rfl

/-! ## Claim C6: idempotence of a second run over an unchanged catalog -/

/-- The `transcripts` table never holds two rows for the same item. -/
def TranscriptsUnique (db : DB) : Prop :=
  db.transcripts.Pairwise (fun a b => a.video_id ≠ b.video_id)

/-- The `analysis` table never holds two rows for the same
(item, agent kind) pair. -/
def AnalysesUnique (db : DB) : Prop :=
  db.analyses.Pairwise (fun a b =>
    (a.video_id, a.agent_type) ≠ (b.video_id, b.agent_type))

theorem mem_upsertBy {α κ : Type} [DecidableEq κ] (key : α → κ) (x : α) (l : List α)
    (a : α) (ha : a ∈ upsertBy key x l) : a = x ∨ a ∈ l := by
  induction l with
  | nil => simpa [upsertBy] using ha
  | cons y ys ih =>
    by_cases h : key y = key x
    · simp only [upsertBy, if_pos h, List.mem_cons] at ha
      rcases ha with ha | ha
      · exact .inl ha
      · exact .inr (List.mem_cons_of_mem _ ha)
    · simp only [upsertBy, if_neg h, List.mem_cons] at ha
      rcases ha with ha | ha
      · exact .inr (by simp [ha])
      · rcases ih ha with h1 | h1
        · exact .inl h1
        · exact .inr (List.mem_cons_of_mem _ h1)

theorem pairwise_upsertBy {α κ : Type} [DecidableEq κ] (key : α → κ) (x : α)
    (l : List α) (hl : l.Pairwise (fun a b => key a ≠ key b)) :
    (upsertBy key x l).Pairwise (fun a b => key a ≠ key b) := by
  induction l with
  | nil => simp [upsertBy]
  | cons y ys ih =>
    rcases List.pairwise_cons.mp hl with ⟨hy, hys⟩
    by_cases h : key y = key x
    · simp only [upsertBy, if_pos h]
      refine List.pairwise_cons.mpr ⟨?_, hys⟩
      intro b hb
      rw [← h]
      exact hy b hb
    · simp only [upsertBy, if_neg h]
      refine List.pairwise_cons.mpr ⟨?_, ih hys⟩
      intro b hb
      rcases mem_upsertBy key x ys b hb with rfl | hb'
      · exact h
      · exact hy b hb'

theorem analysisSteps_unique (agent : String → Except String AgentRunResult)
    (now : Nat) (v : VideoRow) (st : CronState)
    (h1 : TranscriptsUnique st.db) (h2 : AnalysesUnique st.db) :
    TranscriptsUnique (analysisSteps agent now v st).db ∧
    AnalysesUnique (analysisSteps agent now v st).db := by
  simp only [analysisSteps]
  split
  · exact ⟨h1, h2⟩
  · split
    · exact ⟨h1, h2⟩
    · split
      · exact ⟨h1, h2⟩
      · split
        · exact ⟨h1, pairwise_upsertBy _ _ _ h2⟩
        · exact ⟨h1, pairwise_upsertBy _ _ _ h2⟩

theorem processVideo_unique (pa : String → Nat → AttemptOutcome)
    (agent : String → Except String AgentRunResult) (now : Nat)
    (v : VideoRow) (st : CronState)
    (h1 : TranscriptsUnique st.db) (h2 : AnalysesUnique st.db) :
    TranscriptsUnique (processVideo pa agent now v st).db ∧
    AnalysesUnique (processVideo pa agent now v st).db := by
  simp only [processVideo]
  split
  · exact analysisSteps_unique agent now v _ h1 h2
  · split
    · exact ⟨h1, h2⟩
    · exact analysisSteps_unique agent now v _ (pairwise_upsertBy _ _ _ h1) h2

theorem foldl_processVideo_unique (pa : String → Nat → AttemptOutcome)
    (agent : String → Except String AgentRunResult) (now : Nat)
    (vs : List VideoRow) :
    ∀ st : CronState, TranscriptsUnique st.db → AnalysesUnique st.db →
      TranscriptsUnique
        (vs.foldl (fun st v => processVideo pa agent now v st) st).db ∧
      AnalysesUnique
        (vs.foldl (fun st v => processVideo pa agent now v st) st).db := by
  induction vs with
  | nil => intro st h1 h2; exact ⟨h1, h2⟩
  | cons v vs ih =>
    intro st h1 h2
    have h := processVideo_unique pa agent now v st h1 h2
    exact ih (processVideo pa agent now v st) h.1 h.2

theorem foldl_processVideo_newVideosFound (pa : String → Nat → AttemptOutcome)
    (agent : String → Except String AgentRunResult) (now : Nat)
    (vs : List VideoRow) :
    ∀ st : CronState,
      (vs.foldl (fun st v => processVideo pa agent now v st) st).summary.newVideosFound =
        st.summary.newVideosFound := by
  induction vs with
  | nil => intro st; rfl
  | cons v vs ih =>
    intro st
    rw [List.foldl_cons, ih (processVideo pa agent now v st)]
    simp only [processVideo]
    split
    · simp only [analysisSteps]
      split
      · rfl
      · split
        · rfl
        · split
          · rfl
          · split
            · rfl
            · rfl
    · split
      · rfl
      · simp only [analysisSteps]
        split
        · rfl
        · split
          · rfl
          · split
            · rfl
            · split
              · rfl
              · rfl

theorem newUploads_nil (uploads : List Upload) (db : DB)
    (h : ∀ u ∈ uploads, ∃ v ∈ db.videos, v.id = u.id) :
    newUploads uploads db = [] := by
  simp only [newUploads]
  rw [List.filter_eq_nil_iff]
  intro u hu
  obtain ⟨v, hv, hvid⟩ := h u hu
  simp only [Bool.not_eq_true', Bool.not_eq_false]
  have : u.id ∈ selectVideoIds (uploads.map (fun u => u.id)) db := by
    simp only [selectVideoIds, List.mem_map]
    refine ⟨v, ?_, hvid⟩
    rw [List.mem_filter]
    refine ⟨hv, ?_⟩
    have hm : v.id ∈ uploads.map (fun u => u.id) :=
      List.mem_map.mpr ⟨u, hu, hvid.symm⟩
    exact List.elem_iff.mpr hm
  exact List.elem_iff.mpr this

/-- C6: a second batch run over an unchanged catalog is idempotent —
when every listed id already exists in the store, the new-videos count
of the run is 0, and the keyed transcript/analysis upserts
preserve the at-most-one-row-per-key invariants of the transcript and
analysis tables. -/
theorem second_run_idempotent (pa : String → Nat → AttemptOutcome)
    (agent : String → Except String AgentRunResult)
    (durToSec : String → Nat) (now : Nat)
    (uploads : List Upload) (db0 : DB)
    (h : ∀ u ∈ uploads, ∃ v ∈ db0.videos, v.id = u.id)
    (h1 : TranscriptsUnique db0) (h2 : AnalysesUnique db0) :
    (cronRun pa agent durToSec now uploads db0).summary.newVideosFound = 0 ∧
    TranscriptsUnique (cronRun pa agent durToSec now uploads db0).db ∧
    AnalysesUnique (cronRun pa agent durToSec now uploads db0).db := by
  have hq : queueNewVideos durToSec uploads
      ⟨db0, { videosChecked := uploads.length }, []⟩ =
      ⟨db0, { videosChecked := uploads.length }, []⟩ := by
    simp only [queueNewVideos]
    rw [show newUploads uploads
        (CronState.db ⟨db0, { videosChecked := uploads.length }, []⟩) = []
      from newUploads_nil uploads db0 h]
    rfl
  have e : cronRun pa agent durToSec now uploads db0 =
      (getVideosByStatus .queued db0).foldl
        (fun st v => processVideo pa agent now v st)
        ⟨db0, { videosChecked := uploads.length }, []⟩ := by
    simp only [cronRun]
    rw [hq]
  rw [e]
  refine ⟨?_, ?_⟩
  · rw [foldl_processVideo_newVideosFound]
  · exact foldl_processVideo_unique pa agent now (getVideosByStatus .queued db0)
      ⟨db0, { videosChecked := uploads.length }, []⟩ h1 h2

/-- A store that already holds the three scenario videos. -/
def dbSecondRun : DB := finalABC.db

/-- Witness for C6: rerunning the scenario batch over the store the
first run produced (the catalog unchanged) discovers 0 new videos and
keeps the keyed tables duplicate-free. -/
theorem second_run_idempotent_witness :
    (cronRun perAttemptABC agentABC (fun _ => 0) 100 uploadsABC
        dbSecondRun).summary.newVideosFound = 0 ∧
    TranscriptsUnique (cronRun perAttemptABC agentABC (fun _ => 0) 100 uploadsABC
        dbSecondRun).db ∧
    AnalysesUnique (cronRun perAttemptABC agentABC (fun _ => 0) 100 uploadsABC
        dbSecondRun).db :=
  second_run_idempotent perAttemptABC agentABC (fun _ => 0) 100 uploadsABC dbSecondRun
    (by decide) (by unfold TranscriptsUnique; decide) (by unfold AnalysesUnique; decide)

end YTA
